import Mathlib

/-!
Shallow embedding of the returns/refund/checkout core of the retail
management system (src/models.py, src/services/*.py, src/main.py), with
theorems settling the specification claims.

Monetary amounts are modelled as rationals (the source stores them as
`Numeric(10,2)` fixed-point decimals, on which Python's `round(x, 2)` is the
identity, so the `round` calls in the source are omitted). Quantities are
modelled as `Int`, matching Python's unbounded integers.
-/

namespace Retail

/-- Return request statuses (src/models.py, `ReturnRequestStatus`). -/
inductive RStatus
  | pendingCustomerInfo
  | pendingAuthorization
  | authorized
  | inTransit
  | received
  | underInspection
  | approved
  | rejected
  | refunded
  | cancelled
deriving DecidableEq, Repr, Fintype

/-- The persisted string value of each status (src/models.py enum values). -/
def RStatus.value : RStatus → String
  | .pendingCustomerInfo => "PENDING_CUSTOMER_INFO"
  | .pendingAuthorization => "PENDING_AUTHORIZATION"
  | .authorized => "AUTHORIZED"
  | .inTransit => "IN_TRANSIT"
  | .received => "RECEIVED"
  | .underInspection => "UNDER_INSPECTION"
  | .approved => "APPROVED"
  | .rejected => "REJECTED"
  | .refunded => "REFUNDED"
  | .cancelled => "CANCELLED"

/-- The allowed-transition table (src/models.py, `ReturnRequest._VALID_TRANSITIONS`).
Statuses absent from the dict map to the empty set (`.get(..., set())`). -/
def validTransitions : RStatus → List RStatus
  | .pendingCustomerInfo => [.pendingAuthorization, .cancelled]
  | .pendingAuthorization => [.authorized, .rejected, .cancelled]
  | .authorized => [.inTransit, .rejected]
  | .inTransit => [.received]
  | .received => [.underInspection]
  | .underInspection => [.approved, .rejected]
  | .approved => [.refunded]
  | .rejected => [.cancelled]
  | _ => []

/-- src/models.py, `ReturnRequest.can_transition`. -/
def can_transition (cur nw : RStatus) : Bool :=
  (validTransitions cur).contains nw

/-- src/models.py, `ReturnRequest.transition_to`: raises `ValueError` (the
`InvalidTransition` error) when the transition is not allowed, otherwise
assigns the new status. -/
def transition_to (cur nw : RStatus) : Except String RStatus :=
  if can_transition cur nw then .ok nw
  else .error "Invalid return status transition"

/-- The status a request holds after attempting `transition_to`: the error is
raised before the assignment, so a failed transition leaves it unchanged. -/
def statusAfter (cur nw : RStatus) : RStatus :=
  match transition_to cur nw with
  | .ok s => s
  | .error _ => cur

/-- The allowed-transition table exactly as the spec lists it in section 4.2,
written from the spec's words for comparison with `validTransitions`. -/
def specAllowedTransitions : List (RStatus × RStatus) :=
  [(.pendingCustomerInfo, .pendingAuthorization), (.pendingCustomerInfo, .cancelled),
   (.pendingAuthorization, .authorized), (.pendingAuthorization, .rejected),
   (.pendingAuthorization, .cancelled),
   (.authorized, .inTransit), (.authorized, .rejected),
   (.inTransit, .received),
   (.received, .underInspection),
   (.underInspection, .approved), (.underInspection, .rejected),
   (.approved, .refunded),
   (.rejected, .cancelled)]

/-! ## Inventory service (src/services/inventory_service.py) -/

/-- A Product row: only the fields `decrease_stock` touches. -/
structure ProductRow where
  productID : Nat
  stock : Int
deriving DecidableEq, Repr

/-- src/services/inventory_service.py, `InventoryService.decrease_stock`:
looks the product up, returns `None` when missing, otherwise clamps the new
stock at zero and writes it back. Returns the new stock level and the updated
product table. -/
def decrease_stock (products : List ProductRow) (product_id : Nat) (quantity : Int) :
    Option (Int × List ProductRow) :=
  match products.find? (fun p => p.productID == product_id) with
  | none => none
  | some p =>
      let oldStock := p.stock
      let newStock := max 0 (oldStock - quantity)
      some (newStock,
        products.map (fun q => if q.productID == product_id then { q with stock := newStock } else q))

/-! ## Payment service (src/services/payment_service.py) -/

/-- A Payment row: the fields `PaymentService.refund` and
`RefundService._determine_refund_method` read. `amount` is a nullable column.
`paymentType` models the `payment_type` column and `ptype` the polymorphic
`type` column. -/
structure PaymentRow where
  paymentID : Nat
  amount : Option ℚ
  paymentType : Option String
  ptype : Option String
deriving DecidableEq, Repr

/-- Result of one `PaymentService.refund` call. `gatewayInvoked` records
whether the wrapped gateway operation was handed to the circuit breaker
(i.e. whether the guards at the top of the function were passed). -/
structure RefundCallResult where
  success : Bool
  message : String
  reference : Option String
  gatewayInvoked : Bool
deriving DecidableEq, Repr

/-- src/services/payment_service.py, `PaymentService.refund`. The circuit
breaker plus simulated gateway outcome is a parameter `gw`:
`(success, result)` as returned by `circuit_breaker.execute`. -/
def payment_refund (payment : Option PaymentRow) (amount : ℚ) (gw : Bool × String) :
    RefundCallResult :=
  match payment with
  | none => ⟨false, "Payment record is required for refunds", none, false⟩
  | some p =>
      if amount ≤ 0 then ⟨false, "Refund amount must be positive", none, false⟩
      else
        match p.amount with
        | none => ⟨false, "Refund amount exceeds original payment", none, false⟩
        | some orig =>
            if orig < amount then ⟨false, "Refund amount exceeds original payment", none, false⟩
            else if gw.1 then ⟨true, "Refund processed successfully", some gw.2, true⟩
            else ⟨false, gw.2, none, true⟩

/-! ## Refund orchestrator (src/services/refund_service.py) and
inspection flow (src/services/returns_service.py) -/

/-- Refund statuses (src/models.py, `RefundStatus`). -/
inductive RefStatus
  | pending
  | processing
  | completed
  | failed
deriving DecidableEq, Repr

/-- Refund methods (src/models.py, `RefundMethod`). -/
inductive RefMethod
  | card
  | cash
  | storeCredit
  | originalMethod
deriving DecidableEq, Repr

/-- Inspection results (src/models.py, `InspectionResult`); `partlyApproved`
models the source's PARTIALLY_APPROVED value. -/
inductive InspResult
  | pending
  | approved
  | partlyApproved
  | rejected
deriving DecidableEq, Repr

/-- A SaleItem row: the fields the refund computation reads. -/
structure SaleItemRec where
  saleItemID : Nat
  quantity : Int
  finalUnitPrice : ℚ
deriving DecidableEq, Repr

/-- A ReturnItem row together with its referenced SaleItem. -/
structure ReturnItemRec where
  saleItem : SaleItemRec
  quantity : Int
  restockingFee : ℚ
deriving DecidableEq, Repr

/-- src/models.py, `ReturnItem.requested_refund_amount`:
`max(final_unit_price * min(requested_qty, purchased_qty) - restocking_fee, 0)`
(the `round(_, 2)` is the identity on exact 2-decimal inputs; the floor at
zero is written as an `if` so that it evaluates, which agrees with `max`). -/
def requested_refund_amount (ri : ReturnItemRec) : ℚ :=
  let amount := ri.saleItem.finalUnitPrice * ((min ri.quantity ri.saleItem.quantity : Int) : ℚ)
        - ri.restockingFee
  if amount ≤ 0 then 0 else amount

/-- src/models.py, `ReturnRequest.calculate_requested_amount`: the sum of the
per-item requested refund amounts. -/
def calculate_requested_amount (items : List ReturnItemRec) : ℚ :=
  (items.map requested_refund_amount).sum

/-- A Refund row (src/models.py, `Refund`). -/
structure RefundRec where
  amount : ℚ
  method : RefMethod
  status : RefStatus
  failureReason : Option String
  externalReference : Option String
deriving DecidableEq, Repr

/-- src/models.py, `Refund.mark_completed`: sets COMPLETED and overwrites the
external reference only when a truthy (non-empty) reference is given. -/
def mark_completed (r : RefundRec) (reference : Option String) : RefundRec :=
  { r with
    status := .completed,
    externalReference :=
      match reference with
      | some s => if s = "" then r.externalReference else some s
      | none => r.externalReference }

/-- src/models.py, `Refund.mark_failed`: sets FAILED and records the reason. -/
def mark_failed (r : RefundRec) (reason : String) : RefundRec :=
  { r with status := .failed, failureReason := some reason }

/-- A ReturnRequest aggregate: the fields the refund orchestrator and the
inspection flow read. `refund` is the at-most-one satellite Refund record
(the relationship is declared `uselist=False`). -/
structure ReturnRequestRec where
  returnRequestID : Nat
  customerID : Nat
  status : RStatus
  rmaNumber : Option String
  returnItems : List ReturnItemRec
  refund : Option RefundRec
deriving DecidableEq, Repr

/-- The payload of `publish_rma_status_change`
(src/services/notification_service.py). -/
structure StatusNotification where
  returnRequestId : Nat
  customerId : Nat
  oldStatus : String
  newStatus : String
  rmaNumber : Option String
deriving DecidableEq, Repr

/-- Python's `a or b or ""` over two nullable strings (empty strings are
falsy). Used for `payment.payment_type or payment.type or ""`. -/
def pyOrStr (a b : Option String) : String :=
  match a with
  | some s => if s = "" then (b.getD "") else s
  | none => b.getD ""

/-- src/services/refund_service.py, `RefundService._determine_refund_method`. -/
def determine_refund_method (requested : Option RefMethod) (p : PaymentRow) : RefMethod :=
  match requested with
  | some m => m
  | none =>
      let pt := (pyOrStr p.paymentType p.ptype).toLower
      if pt = "card" then .card
      else if pt = "cash" then .cash
      else .originalMethod

/-- The refund amount `process_refund` uses:
`amount_override or return_request.calculate_requested_amount()` — Python's
`or` falls through to the computed amount when the override is `None` *or*
zero (`0.0` is falsy). -/
def refundAmountOf (req : ReturnRequestRec) (amountOverride : Option ℚ) : ℚ :=
  match amountOverride with
  | some a => if a = 0 then calculate_requested_amount req.returnItems else a
  | none => calculate_requested_amount req.returnItems

/-- Result of one `RefundService.process_refund` call. `request` is the
request's state afterwards, `gatewayInvoked` whether
`payment_service.refund` was called, `restocked` whether
`inventory_service.apply_return_stock` ran, `statusChanges` the status
changes applied to the request, and `notifications` the
`publish_rma_status_change` calls made (the source makes none here). -/
structure ProcessRefundResult where
  success : Bool
  message : String
  refund : Option RefundRec
  request : Option ReturnRequestRec
  gatewayInvoked : Bool
  restocked : Bool
  statusChanges : List (RStatus × RStatus)
  notifications : List StatusNotification
deriving DecidableEq, Repr

/-- The tail of `process_refund` after the PENDING refund row is in place:
invoke the circuit-breaker-wrapped gateway (outcome `gw` =
`(success, message, reference)` as returned by `PaymentService.refund`) and
commit either the COMPLETED or the FAILED outcome. On success the request is
set to REFUNDED by direct assignment, with no notification published. -/
def runRefundGateway (req : ReturnRequestRec) (refund : RefundRec)
    (gw : Bool × String × Option String) : ProcessRefundResult :=
  if gw.1 then
    let completed := mark_completed refund gw.2.2
    { success := true, message := gw.2.1, refund := some completed,
      request := some { req with status := .refunded, refund := some completed },
      gatewayInvoked := true, restocked := true,
      statusChanges := [(req.status, .refunded)], notifications := [] }
  else
    let failed := mark_failed refund gw.2.1
    { success := false, message := gw.2.1, refund := some failed,
      request := some { req with refund := some failed },
      gatewayInvoked := true, restocked := false,
      statusChanges := [], notifications := [] }

/-- src/services/refund_service.py, `RefundService.process_refund`. The
payment row and the gateway outcome are parameters (the source obtains them
from the database and the circuit-breaker-wrapped gateway). -/
def process_refund (request : Option ReturnRequestRec) (payment : Option PaymentRow)
    (methodReq : Option RefMethod) (amountOverride : Option ℚ)
    (gw : Bool × String × Option String) : ProcessRefundResult :=
  match request with
  | none =>
      { success := false, message := "Return request not found", refund := none,
        request := none, gatewayInvoked := false, restocked := false,
        statusChanges := [], notifications := [] }
  | some req =>
      if req.status ≠ .approved ∧ req.status ≠ .refunded then
        { success := false,
          message := "Return request is not approved (current status: " ++ req.status.value ++ ")",
          refund := none, request := some req, gatewayInvoked := false, restocked := false,
          statusChanges := [], notifications := [] }
      else if req.status = .refunded then
        { success := true, message := "Return request already refunded", refund := req.refund,
          request := some req, gatewayInvoked := false, restocked := false,
          statusChanges := [], notifications := [] }
      else
        match payment with
        | none =>
            { success := false, message := "No payment record associated with this sale",
              refund := none, request := some req, gatewayInvoked := false, restocked := false,
              statusChanges := [], notifications := [] }
        | some pay =>
            let refundAmount := refundAmountOf req amountOverride
            if refundAmount ≤ 0 then
              { success := false, message := "Calculated refund amount is zero; nothing to refund",
                refund := none, request := some req, gatewayInvoked := false, restocked := false,
                statusChanges := [], notifications := [] }
            else
              let refundMethod := determine_refund_method methodReq pay
              match req.refund with
              | some r =>
                  if r.status = .completed then
                    { success := true, message := "Refund already completed", refund := some r,
                      request := some req, gatewayInvoked := false, restocked := false,
                      statusChanges := [], notifications := [] }
                  else
                    runRefundGateway req
                      { r with amount := refundAmount, method := refundMethod,
                               status := .pending, failureReason := none } gw
              | none =>
                  runRefundGateway req
                    ⟨refundAmount, refundMethod, .pending, none, none⟩ gw

/-- Result of one `ReturnsService.record_inspection` call, with the status
changes applied and the notifications published. -/
structure RecordInspectionResult where
  success : Bool
  message : String
  request : Option ReturnRequestRec
  inspectionResult : Option InspResult
  statusChanges : List (RStatus × RStatus)
  notifications : List StatusNotification
deriving DecidableEq, Repr

/-- src/services/returns_service.py, `ReturnsService.record_inspection`:
requires RECEIVED or UNDER_INSPECTION, auto-advances RECEIVED to
UNDER_INSPECTION, records the inspection, then transitions to APPROVED or
REJECTED according to the result. `old_status` is captured only *after* the
auto-advance, and a notification is published only when the final status
differs from it. -/
def record_inspection (request : Option ReturnRequestRec)
    (result : InspResult) : RecordInspectionResult :=
  match request with
  | none =>
      ⟨false, "Return request not ready for inspection", none, none, [], []⟩
  | some req0 =>
      if req0.status = .received ∨ req0.status = .underInspection then
        let autoAdvance := req0.status = .received
        let req1 := if autoAdvance then { req0 with status := .underInspection } else req0
        let oldStatus := req1.status
        let req2 :=
          if result = .approved ∨ result = .partlyApproved then { req1 with status := .approved }
          else if result = .rejected then { req1 with status := .rejected }
          else req1
        let changes :=
          (if autoAdvance then [(RStatus.received, RStatus.underInspection)] else []) ++
          (if req2.status ≠ oldStatus then [(oldStatus, req2.status)] else [])
        let notifs :=
          if req2.status ≠ oldStatus then
            [⟨req2.returnRequestID, req2.customerID, oldStatus.value, req2.status.value,
              req2.rmaNumber⟩]
          else []
        ⟨true, "Inspection recorded", some req2, some result, changes, notifs⟩
      else
        ⟨false, "Return request not ready for inspection", some req0, none, [], []⟩

/-- Result of one admin-driven transition call (`authorize_return`,
`record_shipment`, `mark_received`): success flag, message, the request's
state afterwards, and the notifications published. -/
structure TransitionCallResult where
  success : Bool
  message : String
  request : Option ReturnRequestRec
  notifications : List StatusNotification
deriving DecidableEq, Repr

/-- src/services/returns_service.py, `ReturnsService.authorize_return`: only
valid from PENDING_AUTHORIZATION or PENDING_CUSTOMER_INFO; `old_status` is
captured *before* the transition; approve transitions to AUTHORIZED via
`transition_to` and assigns the RMA number once when it is unset (the
date-and-id-derived string is the parameter `rmaGenerated`); reject
transitions to REJECTED. A `transition_to` outside the table raises
(modelled as a failure with no publish); on success exactly one notification
is published. -/
def authorize_return (request : Option ReturnRequestRec) (approve : Bool)
    (rmaGenerated : String) : TransitionCallResult :=
  match request with
  | none => ⟨false, "Return request not found", none, []⟩
  | some req =>
      if req.status ≠ .pendingAuthorization ∧ req.status ≠ .pendingCustomerInfo then
        ⟨false, "Cannot authorize return in status " ++ req.status.value, some req, []⟩
      else
        let oldStatus := req.status
        let target := if approve then RStatus.authorized else RStatus.rejected
        match transition_to req.status target with
        | .error e => ⟨false, e, some req, []⟩
        | .ok newStatus =>
            let rma :=
              if approve then
                match req.rmaNumber with
                | none => some rmaGenerated
                | some r => if r = "" then some rmaGenerated else some r
              else req.rmaNumber
            let req2 := { req with status := newStatus, rmaNumber := rma }
            ⟨true, if approve then "Return authorized" else "Return rejected", some req2,
              [⟨req2.returnRequestID, req2.customerID, oldStatus.value, newStatus.value,
                req2.rmaNumber⟩]⟩

/-- src/services/returns_service.py, `ReturnsService.record_shipment`: only
valid from AUTHORIZED (`_require_status`); creates or updates the shipment
satellite row (carrier, tracking, shipped-at — not otherwise read here),
captures `old_status` before the transition, transitions to IN_TRANSIT, and
publishes exactly one notification. -/
def record_shipment (request : Option ReturnRequestRec) : TransitionCallResult :=
  match request with
  | none => ⟨false, "Return request not in AUTHORIZED state", none, []⟩
  | some req =>
      if req.status = .authorized then
        let oldStatus := req.status
        match transition_to req.status .inTransit with
        | .error e => ⟨false, e, some req, []⟩
        | .ok newStatus =>
            let req2 := { req with status := newStatus }
            ⟨true, "Return shipment recorded", some req2,
              [⟨req2.returnRequestID, req2.customerID, oldStatus.value, newStatus.value,
                req2.rmaNumber⟩]⟩
      else ⟨false, "Return request not in AUTHORIZED state", some req, []⟩

/-- src/services/returns_service.py, `ReturnsService.mark_received`: only
valid from IN_TRANSIT and only when a shipment row exists (`hasShipment`);
captures `old_status` before the transition, sets received-at, transitions
to RECEIVED, and publishes exactly one notification. -/
def mark_received (request : Option ReturnRequestRec) (hasShipment : Bool) :
    TransitionCallResult :=
  match request with
  | none => ⟨false, "Return request not in transit", none, []⟩
  | some req =>
      if req.status = .inTransit then
        if hasShipment then
          let oldStatus := req.status
          match transition_to req.status .received with
          | .error e => ⟨false, e, some req, []⟩
          | .ok newStatus =>
              let req2 := { req with status := newStatus }
              ⟨true, "Return marked as received", some req2,
                [⟨req2.returnRequestID, req2.customerID, oldStatus.value, newStatus.value,
                  req2.rmaNumber⟩]⟩
        else ⟨false, "No shipment record found for this return", some req, []⟩
      else ⟨false, "Return request not in transit", some req, []⟩

/-! ## Return-request creation quantity checks
(src/services/returns_service.py, `ReturnsService._build_return_items`) -/

/-- A SaleItem row as seen by `_build_return_items`. -/
structure SaleItemRow where
  saleItemID : Nat
  quantity : Int
deriving DecidableEq, Repr

/-- An already-persisted ReturnItem together with the status of the
ReturnRequest it belongs to (`ri.return_request.status`). -/
structure ReturnItemRow where
  saleItemID : Nat
  quantity : Int
  requestStatus : RStatus
deriving DecidableEq, Repr

/-- The quantity already reserved for a sale item: the sum over existing
ReturnItems referencing it whose request status is neither REJECTED nor
CANCELLED (src/services/returns_service.py lines 373-381). -/
def reservedQuantity (existing : List ReturnItemRow) (sid : Nat) : Int :=
  ((existing.filter (fun ri => ri.saleItemID == sid &&
      !(ri.requestStatus == RStatus.rejected) &&
      !(ri.requestStatus == RStatus.cancelled))).map (fun ri => ri.quantity)).sum

/-- The per-payload-entry loop of `_build_return_items`: each
`(sale_item_id, quantity)` pair is validated in order against the policy
maximum, the purchased quantity, and the remaining quantity after
subtracting `reservedQuantity` (which counts only already-persisted return
items — entries earlier in the same payload are not accumulated). -/
def build_items_loop (saleItems : List SaleItemRow) (existing : List ReturnItemRow)
    (maxQty : Int) : List (Nat × Int) → Except String (List (Nat × Int))
  | [] => .ok []
  | (sid, qty) :: rest =>
      if sid = 0 ∨ qty ≤ 0 then
        .error "Each item must include sale_item_id and positive quantity"
      else
        match saleItems.find? (fun si => si.saleItemID == sid) with
        | none => .error "Sale item not found for this sale"
        | some si =>
            if maxQty < qty then .error "Quantity exceeds policy max"
            else if si.quantity < qty then
              .error "Cannot return more units than were purchased"
            else
              let remaining := max 0 (si.quantity - reservedQuantity existing sid)
              if remaining ≤ 0 then
                .error "All units for this item already have return requests."
              else if remaining < qty then
                .error "Only some units remain eligible for return."
              else
                match build_items_loop saleItems existing maxQty rest with
                | .ok acc => .ok ((sid, qty) :: acc)
                | .error e => .error e

/-- src/services/returns_service.py, `ReturnsService._build_return_items`:
an empty payload is rejected, otherwise each entry is validated in turn. -/
def build_return_items (saleItems : List SaleItemRow) (existing : List ReturnItemRow)
    (maxQty : Int) (payload : List (Nat × Int)) : Except String (List (Nat × Int)) :=
  match payload with
  | [] => .error "At least one item must be selected for return"
  | _ => build_items_loop saleItems existing maxQty payload

/-- The total quantity a list of accepted `(sale_item_id, quantity)` pairs
commits against one sale item. -/
def committedQuantity (items : List (Nat × Int)) (sid : Nat) : Int :=
  ((items.filter (fun p => p.1 == sid)).map (fun p => p.2)).sum

/-! ## Checkout authorization-failure branch (src/main.py, `checkout`) -/

/-- A Sale row: the fields the authorization-failure branch touches. -/
structure SaleRec where
  saleID : Nat
  userID : Nat
  totalAmount : ℚ
  status : String
deriving DecidableEq, Repr

/-- A FailedPaymentLog row (src/models.py, `FailedPaymentLog`). -/
structure FailedPaymentLogRec where
  userID : Nat
  amount : ℚ
  paymentMethod : String
  reason : String
deriving DecidableEq, Repr

/-- Outcome of the authorization-failure branch: the sale's final state, the
sequence of statuses written to it, the payment's status (when written), the
failed-payment log entry (when written), the message shown and the HTTP
status returned. -/
structure AuthFailureResult where
  sale : SaleRec
  saleStatusTrace : List String
  paymentStatus : Option String
  log : Option FailedPaymentLogRec
  message : String
  httpStatus : Nat
deriving DecidableEq, Repr

/-- src/main.py, `checkout`, the `else` branch taken when payment
authorization fails (lines 820-917). `queueResult` models
`quality_manager.queue_order_for_retry`: `.ok queue_message` when the order
was enqueued, `.error e` when it was not (the `except` clause folds a raised
exception into the not-queued case). When queued, the sale is kept `pending`
and the user is told the order is queued for asynchronous retry; otherwise
the sale is marked `failed`, a FailedPaymentLog row is written and committed,
and the sale is then reverted to `cart`. (The failed-path message's
"Failed payment attempt #id." insert, a database-generated id, is elided.) -/
def checkout_auth_failure (sale : SaleRec) (paymentMethod : String) (reason : String)
    (queueResult : Except String String) : AuthFailureResult :=
  match queueResult with
  | .ok queueMessage =>
      { sale := { sale with status := "pending" },
        saleStatusTrace := ["pending"],
        paymentStatus := none,
        log := none,
        message := "Payment gateway is currently unavailable. Your order has been queued for retry and will be processed asynchronously. Details: "
          ++ (if queueMessage = "" then reason else queueMessage),
        httpStatus := 200 }
  | .error _ =>
      { sale := { sale with status := "cart" },
        saleStatusTrace := ["failed", "cart"],
        paymentStatus := some "failed",
        log := some ⟨sale.userID, sale.totalAmount, paymentMethod, reason⟩,
        message := "Payment failed: " ++ reason
          ++ ". Please use a different payment method or cancel your sale.",
        httpStatus := 400 }

/-! ## Circuit breaker -/

/-- Circuit-breaker states (src/models.py, `CircuitBreakerState.state`:
`closed`, `open`, `half_open`). -/
inductive CBState
  | closed
  | opened
  | halfOpen
deriving DecidableEq, Repr

/-- The per-service breaker row (src/models.py, `CircuitBreakerState`). Times
are modelled as natural-number instants. -/
structure BreakerState where
  state : CBState
  failureCount : Nat
  nextAttemptTime : Option Nat
  failureThreshold : Nat
  timeoutDuration : Nat
deriving DecidableEq, Repr

/-- Result of one `execute(operation)` call: the `(success, result)` pair,
whether the wrapped operation was invoked, and the persisted breaker state
afterwards. -/
structure CBExecResult where
  success : Bool
  result : String
  invoked : Bool
  after : BreakerState
deriving DecidableEq, Repr

/-- Modelled from the spec: the circuit-breaker implementation
(`PaymentServiceCircuitBreaker`, imported by src/services/payment_service.py
from `src.tactics.availability`) is not present under src/; only its
persisted row (src/models.py, `CircuitBreakerState`) is. This follows spec
section 4.1: while `open` and the timeout has not elapsed, calls return
`(False, "service temporarily unavailable")` without invoking the operation;
once the timeout elapses the next call is the half-open trial, whose success
closes the breaker and resets the failure count and whose failure re-opens
it and resets the timeout clock; in `closed`, reaching `failure_threshold`
failures opens the breaker. -/
def cb_execute (cb : BreakerState) (now : Nat) (op : Except String String) : CBExecResult :=
  match cb.state with
  | .opened =>
      if now < cb.nextAttemptTime.getD 0 then
        ⟨false, "service temporarily unavailable", false, cb⟩
      else
        match op with
        | .ok r =>
            ⟨true, r, true, { cb with state := .closed, failureCount := 0, nextAttemptTime := none }⟩
        | .error e =>
            ⟨false, e, true, { cb with state := .opened, nextAttemptTime := some (now + cb.timeoutDuration) }⟩
  | .halfOpen =>
      match op with
      | .ok r =>
          ⟨true, r, true, { cb with state := .closed, failureCount := 0, nextAttemptTime := none }⟩
      | .error e =>
          ⟨false, e, true, { cb with state := .opened, nextAttemptTime := some (now + cb.timeoutDuration) }⟩
  | .closed =>
      match op with
      | .ok r =>
          ⟨true, r, true, { cb with state := .closed, failureCount := 0, nextAttemptTime := none }⟩
      | .error e =>
          let count := cb.failureCount + 1
          if cb.failureThreshold ≤ count then
            ⟨false, e, true,
              { cb with state := .opened, failureCount := count,
                        nextAttemptTime := some (now + cb.timeoutDuration) }⟩
          else
            ⟨false, e, true, { cb with failureCount := count }⟩

/-- `k` consecutive failing calls against the breaker, all at instant `now`. -/
def cb_run_failures (cb : BreakerState) (now : Nat) : Nat → BreakerState
  | 0 => cb
  | n + 1 => cb_run_failures (cb_execute cb now (.error "Payment processor timeout")).after now n

/-! # Theorems -/

/-- C1: `transition_to` succeeds exactly on the pairs of the section 4.2
allowed-transition table; any other transition fails and leaves the status
unchanged. -/
theorem transition_table_exact :
    ∀ cur nw : RStatus,
      ((transition_to cur nw).isOk ↔ (cur, nw) ∈ specAllowedTransitions) ∧
      ((cur, nw) ∈ specAllowedTransitions → statusAfter cur nw = nw) ∧
      ((cur, nw) ∉ specAllowedTransitions → statusAfter cur nw = cur) := by
  intro cur nw
  cases cur <;> cases nw <;> decide

/-- Witness for C1 at concrete transitions: APPROVED→REFUNDED is applied,
APPROVED→CANCELLED fails and leaves the status unchanged. -/
theorem transition_table_exact_witness :
    statusAfter RStatus.approved RStatus.refunded = RStatus.refunded ∧
    statusAfter RStatus.approved RStatus.cancelled = RStatus.approved :=
  ⟨(transition_table_exact RStatus.approved RStatus.refunded).2.1 (by decide),
   (transition_table_exact RStatus.approved RStatus.cancelled).2.2 (by decide)⟩

/-- C10: `decrease_stock` clamps at zero — when the product exists the new
stock is `max 0 (old − quantity)`, hence never negative, and when the product
does not exist the result is `none` and nothing changes. -/
theorem decrease_stock_clamps_at_zero
    (products : List ProductRow) (pid : Nat) (qty : Int) :
    (products.find? (fun p => p.productID == pid) = none →
        decrease_stock products pid qty = none) ∧
    (∀ p, products.find? (fun p => p.productID == pid) = some p →
        ∃ ps, decrease_stock products pid qty = some (max 0 (p.stock - qty), ps) ∧
          0 ≤ max 0 (p.stock - qty) ∧
          ∀ q ∈ ps, 0 ≤ max 0 (p.stock - qty) → q.productID ≠ pid → q ∈ products) := by
  constructor
  · intro h
    simp [decrease_stock, h]
  · intro p hp
    refine ⟨products.map (fun q => if q.productID == pid then { q with stock := max 0 (p.stock - qty) } else q),
      ?_, le_max_left 0 _, ?_⟩
    · simp [decrease_stock, hp]
    · intro q hq _ hne
      simp only [List.mem_map] at hq
      obtain ⟨q₀, hq₀, hq₀eq⟩ := hq
      by_cases hc : q₀.productID == pid
      · exfalso
        apply hne
        rw [← hq₀eq]
        simp only [hc, if_true]
        exact Nat.eq_of_beq_eq_true (by simpa using hc)
      · rwa [← hq₀eq, if_neg (by simp_all)]

/-- Witness for C10 at a concrete store: product 7 with stock 2, decrease by 5. -/
theorem decrease_stock_clamps_at_zero_witness :
    ([⟨7, 2⟩] : List ProductRow).find? (fun p => p.productID == 7) = some ⟨7, 2⟩ ∧
    ∃ ps, decrease_stock [⟨7, 2⟩] 7 5 = some (max 0 ((2 : Int) - 5), ps) ∧
      0 ≤ max 0 ((2 : Int) - 5) ∧
      ∀ q ∈ ps, 0 ≤ max 0 ((2 : Int) - 5) → q.productID ≠ 7 → q ∈ [(⟨7, 2⟩ : ProductRow)] := by
  exact ⟨by decide, (decrease_stock_clamps_at_zero [⟨7, 2⟩] 7 5).2 ⟨7, 2⟩ (by decide)⟩

/-- C9: `PaymentService.refund` fails without invoking the gateway whenever
the payment is missing, its amount is unset, or the requested amount exceeds
the original payment; consequently the gateway is only ever invoked for an
amount no larger than the original payment. -/
theorem payment_refund_guards
    (payment : Option PaymentRow) (amount : ℚ) (gw : Bool × String)
    (hpos : 0 < amount)
    (hbad : payment = none ∨
      ∃ p, payment = some p ∧ (p.amount = none ∨ ∃ a, p.amount = some a ∧ a < amount)) :
    (payment_refund payment amount gw).success = false ∧
    (payment_refund payment amount gw).reference = none ∧
    (payment_refund payment amount gw).gatewayInvoked = false ∧
    (∀ pay res, payment_refund (some pay) amount gw = res → res.gatewayInvoked = true →
      ∃ a, pay.amount = some a ∧ amount ≤ a) := by
  have hgen : ∀ pay res, payment_refund (some pay) amount gw = res → res.gatewayInvoked = true →
      ∃ a, pay.amount = some a ∧ amount ≤ a := by
    intro pay res hres hinv
    subst hres
    cases ha : pay.amount with
    | none => simp [payment_refund, not_le.mpr hpos, ha] at hinv
    | some a =>
        by_cases hlt : a < amount
        · simp [payment_refund, not_le.mpr hpos, ha, hlt] at hinv
        · exact ⟨a, rfl, not_lt.mp hlt⟩
  rcases hbad with hnone | ⟨p, hp, hbadp⟩
  · subst hnone
    exact ⟨rfl, rfl, rfl, hgen⟩
  · subst hp
    have hnotle : ¬ amount ≤ 0 := not_le.mpr hpos
    rcases hbadp with hno | ⟨a, ha, hlt⟩
    · refine ⟨?_, ?_, ?_, hgen⟩ <;> simp [payment_refund, hno, hnotle]
    · refine ⟨?_, ?_, ?_, hgen⟩ <;> simp [payment_refund, ha, hnotle, hlt]

/-- Witness for C9: a payment of 10 with a requested refund of 11. -/
theorem payment_refund_guards_witness :
    (0 : ℚ) < 11 ∧
    ((payment_refund (some ⟨1, some 10, some "card", some "card"⟩) 11 (true, "REF")).success = false ∧
     (payment_refund (some ⟨1, some 10, some "card", some "card"⟩) 11 (true, "REF")).reference = none ∧
     (payment_refund (some ⟨1, some 10, some "card", some "card"⟩) 11 (true, "REF")).gatewayInvoked = false ∧
     (∀ pay res, payment_refund (some pay) 11 (true, "REF") = res → res.gatewayInvoked = true →
       ∃ a, pay.amount = some a ∧ (11 : ℚ) ≤ a)) :=
  ⟨by norm_num,
   payment_refund_guards (some ⟨1, some 10, some "card", some "card"⟩) 11 (true, "REF")
     (by norm_num)
     (.inr ⟨_, rfl, .inr ⟨10, rfl, by norm_num⟩⟩)⟩

/-- C3: `process_refund` is idempotent on a refunded request — on a REFUNDED
request it succeeds without invoking the gateway and leaves the state (and its
single COMPLETED refund record) unchanged, a second call behaves identically,
and it fails when the request is missing or its status is neither APPROVED nor
REFUNDED. -/
theorem process_refund_idempotent_on_refunded
    (req : ReturnRequestRec) (payment : Option PaymentRow)
    (methodReq : Option RefMethod) (override : Option ℚ)
    (gw gw2 : Bool × String × Option String) (r : RefundRec)
    (hst : req.status = .refunded) (href : req.refund = some r)
    (hc : r.status = .completed) :
    (process_refund (some req) payment methodReq override gw).success = true ∧
    (process_refund (some req) payment methodReq override gw).gatewayInvoked = false ∧
    (process_refund (some req) payment methodReq override gw).request = some req ∧
    (process_refund (some req) payment methodReq override gw).refund = some r ∧
    (process_refund ((process_refund (some req) payment methodReq override gw).request)
        payment methodReq override gw2).success = true ∧
    (process_refund ((process_refund (some req) payment methodReq override gw).request)
        payment methodReq override gw2).gatewayInvoked = false ∧
    (process_refund ((process_refund (some req) payment methodReq override gw).request)
        payment methodReq override gw2).refund = some r ∧
    r.status = .completed ∧
    (process_refund none payment methodReq override gw).success = false ∧
    (∀ req2 : ReturnRequestRec, req2.status ≠ .approved → req2.status ≠ .refunded →
      (process_refund (some req2) payment methodReq override gw).success = false) := by
  have hfail : ∀ req2 : ReturnRequestRec, req2.status ≠ .approved → req2.status ≠ .refunded →
      (process_refund (some req2) payment methodReq override gw).success = false := by
    intro req2 h1 h2
    simp [process_refund, h1, h2]
  refine ⟨?_, ?_, ?_, ?_, ?_, ?_, ?_, hc, ?_, hfail⟩ <;>
    simp [process_refund, hst, href]

/-- Witness for C3 at a concrete refunded request with a completed refund. -/
theorem process_refund_idempotent_on_refunded_witness :
    (⟨1, 1, .refunded, some "RMA-X",
        [⟨⟨1, 1, 100⟩, 1, 0⟩], some ⟨100, .card, .completed, none, some "RF"⟩⟩ :
      ReturnRequestRec).status = RStatus.refunded ∧
    (process_refund
        (some ⟨1, 1, .refunded, some "RMA-X",
          [⟨⟨1, 1, 100⟩, 1, 0⟩], some ⟨100, .card, .completed, none, some "RF"⟩⟩)
        (some ⟨1, some 100, some "card", some "card"⟩) none none
        (true, "ok", some "RF2")).success = true := by
  have h := process_refund_idempotent_on_refunded
    ⟨1, 1, .refunded, some "RMA-X",
      [⟨⟨1, 1, 100⟩, 1, 0⟩], some ⟨100, .card, .completed, none, some "RF"⟩⟩
    (some ⟨1, some 100, some "card", some "card"⟩) none none
    (true, "ok", some "RF2") (true, "ok", some "RF2")
    ⟨100, .card, .completed, none, some "RF"⟩ rfl rfl rfl
  exact ⟨rfl, h.1⟩

/-- C5: on gateway failure the refund is marked FAILED with the failure
reason recorded, the request stays APPROVED, and the caller receives the
failure reason verbatim. -/
theorem process_refund_gateway_failure
    (req : ReturnRequestRec) (pay : PaymentRow) (methodReq : Option RefMethod)
    (override : Option ℚ) (msg : String) (ref : Option String)
    (happ : req.status = .approved)
    (hamt : 0 < refundAmountOf req override)
    (href : req.refund = none ∨ ∃ r0, req.refund = some r0 ∧ r0.status ≠ .completed) :
    (process_refund (some req) (some pay) methodReq override (false, msg, ref)).success
        = false ∧
    (process_refund (some req) (some pay) methodReq override (false, msg, ref)).message
        = msg ∧
    (∃ r, (process_refund (some req) (some pay) methodReq override (false, msg, ref)).refund
        = some r ∧ r.status = .failed ∧ r.failureReason = some msg) ∧
    (∃ req2,
      (process_refund (some req) (some pay) methodReq override (false, msg, ref)).request
        = some req2 ∧ req2.status = .approved) := by
  rcases href with h0 | ⟨r0, hr0, hr0c⟩
  · refine ⟨?_, ?_, ?_, ?_⟩ <;>
      simp [process_refund, happ, not_le.mpr hamt, h0, runRefundGateway, mark_failed]
  · refine ⟨?_, ?_, ?_, ?_⟩ <;>
      simp [process_refund, happ, not_le.mpr hamt, hr0, hr0c, runRefundGateway, mark_failed]

/-- Witness for C5: an approved request of one item worth 100, failing
gateway with reason "circuit open". -/
theorem process_refund_gateway_failure_witness :
    (0 : ℚ) < refundAmountOf
        ⟨1, 1, .approved, some "RMA-Y", [⟨⟨1, 1, 100⟩, 1, 0⟩], none⟩ none ∧
    (process_refund
        (some ⟨1, 1, .approved, some "RMA-Y", [⟨⟨1, 1, 100⟩, 1, 0⟩], none⟩)
        (some ⟨1, some 100, some "card", some "card"⟩) none none
        (false, "circuit open", none)).message = "circuit open" := by
  have hamt : (0 : ℚ) < refundAmountOf
      ⟨1, 1, .approved, some "RMA-Y", [⟨⟨1, 1, 100⟩, 1, 0⟩], none⟩ none := by
    norm_num [refundAmountOf, calculate_requested_amount, requested_refund_amount]
  have h := process_refund_gateway_failure
    ⟨1, 1, .approved, some "RMA-Y", [⟨⟨1, 1, 100⟩, 1, 0⟩], none⟩
    ⟨1, some 100, some "card", some "card"⟩ none none "circuit open" none
    rfl hamt (.inl rfl)
  exact ⟨hamt, h.2.1⟩

/-- C4 counterexample: for an APPROVED request whose computed amount is 100,
supplying an override amount of 0 does *not* make `process_refund` use the
override and reject with "nothing to refund": Python's
`amount_override or computed` treats `0` as absent, the computed amount 100 is
used, and the gateway *is* called. -/
theorem process_refund_zero_override_counterexample :
    (process_refund
        (some ⟨1, 1, .approved, none, [⟨⟨1, 1, 100⟩, 1, 0⟩], none⟩)
        (some ⟨1, some 100, some "card", some "card"⟩) (some .card) (some 0)
        (true, "Refund processed successfully", some "RF-1")).gatewayInvoked = true ∧
    (process_refund
        (some ⟨1, 1, .approved, none, [⟨⟨1, 1, 100⟩, 1, 0⟩], none⟩)
        (some ⟨1, some 100, some "card", some "card"⟩) (some .card) (some 0)
        (true, "Refund processed successfully", some "RF-1")).success = true ∧
    (process_refund
        (some ⟨1, 1, .approved, none, [⟨⟨1, 1, 100⟩, 1, 0⟩], none⟩)
        (some ⟨1, some 100, some "card", some "card"⟩) (some .card) (some 0)
        (true, "Refund processed successfully", some "RF-1")).refund =
      some ⟨100, .card, .completed, none, some "RF-1"⟩ := by
  refine ⟨?_, ?_, ?_⟩ <;>
    (norm_num [process_refund, refundAmountOf, calculate_requested_amount,
      requested_refund_amount, determine_refund_method, runRefundGateway,
      mark_completed] <;> decide)

/-- C4 (amended): the refund amount is the per-item floored sum unless a
*nonzero* override is supplied (a zero override is treated as absent); an
amount of zero or less is rejected with "nothing to refund" and no gateway
call; otherwise the refund record carries exactly that amount. -/
theorem process_refund_amount_formula
    (req : ReturnRequestRec) (pay : PaymentRow) (methodReq : Option RefMethod)
    (override : Option ℚ) (gw : Bool × String × Option String)
    (happ : req.status = .approved) :
    (refundAmountOf req none = (req.returnItems.map (fun ri =>
        max (ri.saleItem.finalUnitPrice * ((min ri.quantity ri.saleItem.quantity : Int) : ℚ)
          - ri.restockingFee) 0)).sum) ∧
    (∀ a, a ≠ 0 → refundAmountOf req (some a) = a) ∧
    (refundAmountOf req (some 0) = refundAmountOf req none) ∧
    (refundAmountOf req override ≤ 0 →
      process_refund (some req) (some pay) methodReq override gw =
        { success := false, message := "Calculated refund amount is zero; nothing to refund",
          refund := none, request := some req, gatewayInvoked := false, restocked := false,
          statusChanges := [], notifications := [] }) ∧
    (0 < refundAmountOf req override →
      (req.refund = none ∨ ∃ r0, req.refund = some r0 ∧ r0.status ≠ .completed) →
      ∃ r, (process_refund (some req) (some pay) methodReq override gw).refund = some r ∧
        r.amount = refundAmountOf req override) := by
  have hfun : requested_refund_amount = fun ri : ReturnItemRec =>
      max (ri.saleItem.finalUnitPrice * ((min ri.quantity ri.saleItem.quantity : Int) : ℚ)
        - ri.restockingFee) 0 := by
    funext ri
    simp only [requested_refund_amount, max_def]
  refine ⟨?_, ?_, ?_, ?_, ?_⟩
  · simp [refundAmountOf, calculate_requested_amount, hfun]
  · intro a ha
    simp [refundAmountOf, ha]
  · simp [refundAmountOf]
  · intro hle
    simp [process_refund, happ, hle]
  · intro hpos href
    rcases href with h0 | ⟨r0, hr0, hr0c⟩
    · rcases hgw : gw.1 with _ | _ <;>
        simp [process_refund, happ, not_le.mpr hpos, h0,
          runRefundGateway, hgw, mark_failed, mark_completed]
    · rcases hgw : gw.1 with _ | _ <;>
        simp [process_refund, happ, not_le.mpr hpos, hr0, hr0c,
          runRefundGateway, hgw, mark_failed, mark_completed]

/-- Witness for C4 (amended) at a concrete approved request. -/
theorem process_refund_amount_formula_witness :
    (⟨1, 1, .approved, none, [⟨⟨1, 1, 100⟩, 1, 0⟩], none⟩ :
        ReturnRequestRec).status = RStatus.approved ∧
    refundAmountOf (⟨1, 1, .approved, none, [⟨⟨1, 1, 100⟩, 1, 0⟩], none⟩ :
        ReturnRequestRec) (some 25) = 25 := by
  have h := process_refund_amount_formula
    ⟨1, 1, .approved, none, [⟨⟨1, 1, 100⟩, 1, 0⟩], none⟩
    ⟨1, some 100, some "card", some "card"⟩ none (some 25)
    (true, "ok", some "RF") rfl
  exact ⟨rfl, h.2.1 25 (by norm_num)⟩

/-- C7 counterexample: inspecting a RECEIVED request with an APPROVED result
performs two successful transitions (RECEIVED→UNDER_INSPECTION and
UNDER_INSPECTION→APPROVED) but publishes only one notification, whose
old-status field is "UNDER_INSPECTION" — the auto-advance publishes nothing
and the notification does not carry the status actually held before it; and
the refund orchestrator's APPROVED→REFUNDED change publishes no notification
at all. -/
theorem rma_notification_counterexample :
    (record_inspection
        (some ⟨2, 9, .received, some "RMA-1", [⟨⟨1, 1, 50⟩, 1, 0⟩], none⟩)
        .approved).statusChanges =
      [(RStatus.received, RStatus.underInspection),
       (RStatus.underInspection, RStatus.approved)] ∧
    (record_inspection
        (some ⟨2, 9, .received, some "RMA-1", [⟨⟨1, 1, 50⟩, 1, 0⟩], none⟩)
        .approved).notifications =
      [⟨2, 9, "UNDER_INSPECTION", "APPROVED", some "RMA-1"⟩] ∧
    (process_refund
        (some ⟨3, 9, .approved, some "RMA-2", [⟨⟨1, 1, 50⟩, 1, 0⟩], none⟩)
        (some ⟨1, some 50, some "card", some "card"⟩) (some .card) none
        (true, "Refund processed successfully", some "RF")).statusChanges =
      [(RStatus.approved, RStatus.refunded)] ∧
    (process_refund
        (some ⟨3, 9, .approved, some "RMA-2", [⟨⟨1, 1, 50⟩, 1, 0⟩], none⟩)
        (some ⟨1, some 50, some "card", some "card"⟩) (some .card) none
        (true, "Refund processed successfully", some "RF")).notifications = [] := by
  refine ⟨?_, ?_, ?_, ?_⟩ <;>
    (norm_num [record_inspection, process_refund, refundAmountOf,
      calculate_requested_amount, requested_refund_amount, determine_refund_method,
      runRefundGateway, mark_completed, RStatus.value] <;> decide)

/-- C7 (amended): `authorize_return`, `record_shipment` and `mark_received`
each publish exactly one status-change notification per successful
transition, with the old-status field equal to the status held before the
transition; but `record_inspection` publishes at most one notification per
call — exactly one when the final status differs from the post-auto-advance
status, carrying UNDER_INSPECTION (not the pre-call status) as the old
status; the intermediate RECEIVED→UNDER_INSPECTION auto-advance fires no
separate event (none at all when the result leaves the status at
UNDER_INSPECTION); and the refund orchestrator's APPROVED→REFUNDED change
publishes no status-change notification. -/
theorem rma_notification_behavior
    (req reqA reqP reqAu reqT : ReturnRequestRec) (pay : PaymentRow)
    (methodReq : Option RefMethod) (override : Option ℚ) (msg rmaGen : String)
    (ref : Option String)
    (hrec : req.status = .received) (happ : reqA.status = .approved)
    (hamt : 0 < refundAmountOf reqA override) (hrefA : reqA.refund = none)
    (hpa : reqP.status = .pendingAuthorization)
    (hau : reqAu.status = .authorized)
    (hit : reqT.status = .inTransit) :
    ((authorize_return (some reqP) true rmaGen).notifications.map
        (fun n => (n.returnRequestId, n.customerId, n.oldStatus, n.newStatus)) =
      [(reqP.returnRequestID, reqP.customerID, "PENDING_AUTHORIZATION", "AUTHORIZED")] ∧
     (authorize_return (some reqP) false rmaGen).notifications =
      [⟨reqP.returnRequestID, reqP.customerID, "PENDING_AUTHORIZATION", "REJECTED",
        reqP.rmaNumber⟩]) ∧
    ((record_shipment (some reqAu)).notifications =
      [⟨reqAu.returnRequestID, reqAu.customerID, "AUTHORIZED", "IN_TRANSIT",
        reqAu.rmaNumber⟩]) ∧
    ((mark_received (some reqT) true).notifications =
      [⟨reqT.returnRequestID, reqT.customerID, "IN_TRANSIT", "RECEIVED",
        reqT.rmaNumber⟩]) ∧
    ((record_inspection (some req) .approved).statusChanges =
        [(.received, .underInspection), (.underInspection, .approved)] ∧
      (record_inspection (some req) .approved).notifications =
        [⟨req.returnRequestID, req.customerID, "UNDER_INSPECTION", "APPROVED",
          req.rmaNumber⟩]) ∧
    ((record_inspection (some req) .pending).statusChanges =
        [(.received, .underInspection)] ∧
      (record_inspection (some req) .pending).notifications = []) ∧
    ((process_refund (some reqA) (some pay) methodReq override
        (true, msg, ref)).statusChanges = [(.approved, .refunded)] ∧
      (process_refund (some reqA) (some pay) methodReq override
        (true, msg, ref)).notifications = []) := by
  have htA : transition_to RStatus.pendingAuthorization RStatus.authorized
      = .ok RStatus.authorized := rfl
  have htR : transition_to RStatus.pendingAuthorization RStatus.rejected
      = .ok RStatus.rejected := rfl
  have htT : transition_to RStatus.authorized RStatus.inTransit
      = .ok RStatus.inTransit := rfl
  have htRec : transition_to RStatus.inTransit RStatus.received
      = .ok RStatus.received := rfl
  refine ⟨⟨?_, ?_⟩, ?_, ?_, ⟨?_, ?_⟩, ⟨?_, ?_⟩, ?_, ?_⟩
  · simp [authorize_return, hpa, htA, RStatus.value]
  · simp [authorize_return, hpa, htR, RStatus.value]
  · simp [record_shipment, hau, htT, RStatus.value]
  · simp [mark_received, hit, htRec, RStatus.value]
  all_goals
    simp [record_inspection, hrec, RStatus.value, process_refund, happ,
      not_le.mpr hamt, hrefA, runRefundGateway, mark_completed]

/-- Witness for C7 (amended) at concrete requests. -/
theorem rma_notification_behavior_witness :
    ((⟨2, 9, .received, some "RMA-1", [⟨⟨1, 1, 50⟩, 1, 0⟩], none⟩ :
        ReturnRequestRec).status = RStatus.received) ∧
    (record_inspection
        (some ⟨2, 9, .received, some "RMA-1", [⟨⟨1, 1, 50⟩, 1, 0⟩], none⟩)
        .pending).notifications = [] ∧
    (record_shipment
        (some ⟨5, 9, .authorized, some "RMA-3", [⟨⟨1, 1, 50⟩, 1, 0⟩], none⟩)).notifications =
      [⟨5, 9, "AUTHORIZED", "IN_TRANSIT", some "RMA-3"⟩] := by
  have hamt : (0 : ℚ) < refundAmountOf
      ⟨3, 9, .approved, some "RMA-2", [⟨⟨1, 1, 50⟩, 1, 0⟩], none⟩ none := by
    norm_num [refundAmountOf, calculate_requested_amount, requested_refund_amount]
  have h := rma_notification_behavior
    ⟨2, 9, .received, some "RMA-1", [⟨⟨1, 1, 50⟩, 1, 0⟩], none⟩
    ⟨3, 9, .approved, some "RMA-2", [⟨⟨1, 1, 50⟩, 1, 0⟩], none⟩
    ⟨4, 9, .pendingAuthorization, none, [⟨⟨1, 1, 50⟩, 1, 0⟩], none⟩
    ⟨5, 9, .authorized, some "RMA-3", [⟨⟨1, 1, 50⟩, 1, 0⟩], none⟩
    ⟨6, 9, .inTransit, some "RMA-4", [⟨⟨1, 1, 50⟩, 1, 0⟩], none⟩
    ⟨1, some 50, some "card", some "card"⟩ (some .card) none "ok" "RMA-GEN" (some "RF")
    rfl rfl hamt rfl rfl rfl rfl
  exact ⟨rfl, h.2.2.2.2.1.2, h.2.1⟩

/-- Per-pair soundness of the `_build_return_items` loop: a successful run
returns the payload itself, and every accepted pair passed all four quantity
checks — in particular its quantity plus the already-reserved quantity does
not exceed the purchased quantity. -/
theorem build_items_loop_ok (saleItems : List SaleItemRow) (existing : List ReturnItemRow)
    (maxQty : Int) :
    ∀ payload res, build_items_loop saleItems existing maxQty payload = .ok res →
      res = payload ∧ ∀ p ∈ payload, 0 < p.2 ∧ p.2 ≤ maxQty ∧
        ∃ si, saleItems.find? (fun s => s.saleItemID == p.1) = some si ∧
          p.2 ≤ si.quantity ∧ p.2 + reservedQuantity existing p.1 ≤ si.quantity := by
  intro payload
  induction payload with
  | nil =>
      intro res h
      simp only [build_items_loop] at h
      cases h
      simp
  | cons hd rest ih =>
      intro res h
      obtain ⟨sid, qty⟩ := hd
      simp only [build_items_loop] at h
      by_cases h1 : sid = 0 ∨ qty ≤ 0
      · rw [if_pos h1] at h; cases h
      rw [if_neg h1] at h
      cases hfind : saleItems.find? (fun s => s.saleItemID == sid) with
      | none => rw [hfind] at h; cases h
      | some si =>
          rw [hfind] at h
          simp only [] at h
          by_cases h2 : maxQty < qty
          · rw [if_pos h2] at h; cases h
          rw [if_neg h2] at h
          by_cases h3 : si.quantity < qty
          · rw [if_pos h3] at h; cases h
          rw [if_neg h3] at h
          by_cases h4 : max 0 (si.quantity - reservedQuantity existing sid) ≤ 0
          · rw [if_pos h4] at h; cases h
          rw [if_neg h4] at h
          by_cases h5 : max 0 (si.quantity - reservedQuantity existing sid) < qty
          · rw [if_pos h5] at h; cases h
          rw [if_neg h5] at h
          cases hrest : build_items_loop saleItems existing maxQty rest with
          | error e => rw [hrest] at h; simp only [] at h; cases h
          | ok acc =>
              rw [hrest] at h
              simp only [] at h
              cases h
              obtain ⟨hacc, hall⟩ := ih acc hrest
              subst hacc
              push_neg at h1 h4
              have hresPos : 0 < si.quantity - reservedQuantity existing sid := by
                rcases lt_max_iff.mp h4 with h | h
                · exact absurd h (lt_irrefl 0)
                · exact h
              have hremEq : max 0 (si.quantity - reservedQuantity existing sid)
                  = si.quantity - reservedQuantity existing sid :=
                max_eq_right hresPos.le
              have hqle : qty ≤ si.quantity - reservedQuantity existing sid := by
                rw [← hremEq]; exact not_lt.mp h5
              refine ⟨rfl, ?_⟩
              intro p hp
              rcases List.mem_cons.mp hp with hphd | hptl
              · subst hphd
                exact ⟨h1.2, not_lt.mp h2,
                  si, hfind, not_lt.mp h3, by linarith⟩
              · exact hall p hptl

/-- If a sale-item id does not occur in the accepted pairs, nothing is
committed against it. -/
theorem committedQuantity_eq_zero (items : List (Nat × Int)) (sid : Nat)
    (h : sid ∉ items.map Prod.fst) : committedQuantity items sid = 0 := by
  induction items with
  | nil => rfl
  | cons hd rest ih =>
      simp only [List.map_cons, List.mem_cons, not_or] at h
      have hne : (hd.1 == sid) = false := by
        simp only [beq_eq_false_iff_ne, ne_eq]
        exact fun hc => h.1 hc.symm
      have hstep : committedQuantity (hd :: rest) sid = committedQuantity rest sid := by
        simp [committedQuantity, List.filter_cons, hne]
      rw [hstep]
      exact ih h.2

/-- If the accepted pairs reference each sale item at most once, the committed
quantity for a referenced sale item is exactly that pair's quantity. -/
theorem committedQuantity_eq_single (items : List (Nat × Int)) (sid : Nat) (q : Int)
    (hnd : (items.map Prod.fst).Nodup) (hmem : (sid, q) ∈ items) :
    committedQuantity items sid = q := by
  induction items with
  | nil => cases hmem
  | cons hd rest ih =>
      simp only [List.map_cons, List.nodup_cons] at hnd
      rcases List.mem_cons.mp hmem with hphd | hptl
      · have hq : hd = (sid, q) := hphd.symm
        subst hq
        have hzero : committedQuantity rest sid = 0 :=
          committedQuantity_eq_zero rest sid hnd.1
        have hzero2 : ((rest.filter (fun p => p.1 == sid)).map (fun p => p.2)).sum = 0 := hzero
        simp [committedQuantity, List.filter_cons, hzero2]
      · have hsid : sid ∈ rest.map Prod.fst :=
          List.mem_map.mpr ⟨(sid, q), hptl, rfl⟩
        have hne : (hd.1 == sid) = false := by
          simp only [beq_eq_false_iff_ne, ne_eq]
          exact fun hc => hnd.1 (hc ▸ hsid)
        have hstep : committedQuantity (hd :: rest) sid = committedQuantity rest sid := by
          simp [committedQuantity, List.filter_cons, hne]
        rw [hstep]
        exact ih hnd.2 hptl

/-- With pairwise-distinct sale-item ids, `find?` by id returns the member
itself. -/
theorem find_of_nodup_ids (saleItems : List SaleItemRow) (si : SaleItemRow)
    (hnd : (saleItems.map SaleItemRow.saleItemID).Nodup) (hmem : si ∈ saleItems) :
    saleItems.find? (fun s => s.saleItemID == si.saleItemID) = some si := by
  induction saleItems with
  | nil => cases hmem
  | cons hd rest ih =>
      simp only [List.map_cons, List.nodup_cons] at hnd
      rcases List.mem_cons.mp hmem with hphd | hptl
      · subst hphd
        simp [List.find?_cons]
      · have hsid : si.saleItemID ∈ rest.map SaleItemRow.saleItemID :=
          List.mem_map.mpr ⟨si, hptl, rfl⟩
        have hne : (hd.saleItemID == si.saleItemID) = false := by
          simp only [beq_eq_false_iff_ne, ne_eq]
          exact fun hc => hnd.1 (hc ▸ hsid)
        rw [List.find?_cons, hne]
        exact ih hnd.2 hptl

/-- C2 counterexample: a single request listing the same sale item twice
(quantity 3 each against a purchased quantity of 5, with no prior return
requests) passes `_build_return_items` — each pair is checked only against
the already-persisted reservations — so the created request commits 6 units,
exceeding the purchased quantity 5 and violating the claimed invariant. -/
theorem build_return_items_duplicate_counterexample :
    build_return_items [⟨1, 5⟩] [] 5 [(1, 3), (1, 3)] = .ok [(1, 3), (1, 3)] ∧
    reservedQuantity [] 1 + committedQuantity [(1, 3), (1, 3)] 1 = 6 ∧
    (⟨1, 5⟩ : SaleItemRow).quantity = 5 ∧ ¬ (6 : Int) ≤ 5 :=
  ⟨rfl, by decide, rfl, by decide⟩

/-- C2 (amended): each requested pair is individually checked against the
remaining returnable quantity after subtracting quantities committed to
other non-rejected/non-cancelled return requests; consequently, whenever the
payload references each sale item at most once (duplicate references within
one request are each validated independently and can jointly exceed the
purchased quantity), a successful `_build_return_items` preserves the
invariant that active commitments never exceed the purchased quantity. -/
theorem build_return_items_invariant
    (saleItems : List SaleItemRow) (existing : List ReturnItemRow)
    (maxQty : Int) (payload : List (Nat × Int)) (res : List (Nat × Int))
    (hok : build_return_items saleItems existing maxQty payload = .ok res)
    (hndp : (payload.map Prod.fst).Nodup)
    (hnds : (saleItems.map SaleItemRow.saleItemID).Nodup)
    (hprior : ∀ si ∈ saleItems, reservedQuantity existing si.saleItemID ≤ si.quantity) :
    res = payload ∧
    (∀ p ∈ res, 0 < p.2 ∧ p.2 ≤ maxQty ∧
      ∃ si, saleItems.find? (fun s => s.saleItemID == p.1) = some si ∧
        p.2 ≤ si.quantity ∧ p.2 + reservedQuantity existing p.1 ≤ si.quantity) ∧
    (∀ si ∈ saleItems,
      reservedQuantity existing si.saleItemID + committedQuantity res si.saleItemID
        ≤ si.quantity) := by
  have hloop : build_items_loop saleItems existing maxQty payload = .ok res := by
    cases payload with
    | nil => simp [build_return_items] at hok
    | cons hd tl => simpa [build_return_items] using hok
  obtain ⟨hres, hall⟩ := build_items_loop_ok saleItems existing maxQty payload res hloop
  subst hres
  refine ⟨rfl, hall, ?_⟩
  intro si hsi
  by_cases hin : si.saleItemID ∈ res.map Prod.fst
  · obtain ⟨p, hp, hpid⟩ := List.mem_map.mp hin
    obtain ⟨hpos, hmax, si2, hfind2, hle2, hsum2⟩ := hall p hp
    have hp2 : (si.saleItemID, p.2) ∈ res := by
      have hpeq : p = (si.saleItemID, p.2) := by
        rw [← hpid]
      rw [← hpeq]; exact hp
    have hcomm : committedQuantity res si.saleItemID = p.2 :=
      committedQuantity_eq_single res si.saleItemID p.2 hndp hp2
    have hfind : saleItems.find? (fun s => s.saleItemID == si.saleItemID) = some si :=
      find_of_nodup_ids saleItems si hnds hsi
    have hsieq : si2 = si := by
      rw [hpid] at hfind2
      rw [hfind] at hfind2
      exact (Option.some_injective _ hfind2).symm
    rw [hcomm]
    rw [hsieq, hpid] at hsum2
    linarith
  · rw [committedQuantity_eq_zero res si.saleItemID hin]
    have := hprior si hsi
    linarith

/-- Witness for C2 (amended) at a concrete state: one sale item of quantity
5, one prior active reservation of 1 unit, a request for 3 more. -/
theorem build_return_items_invariant_witness :
    build_return_items [⟨1, 5⟩] [⟨1, 1, .pendingAuthorization⟩] 5 [(1, 3)]
        = .ok [(1, 3)] ∧
    (∀ si ∈ [(⟨1, 5⟩ : SaleItemRow)],
      reservedQuantity [⟨1, 1, .pendingAuthorization⟩] si.saleItemID
        + committedQuantity [(1, 3)] si.saleItemID ≤ si.quantity) := by
  have h := build_return_items_invariant [⟨1, 5⟩] [⟨1, 1, .pendingAuthorization⟩] 5
    [(1, 3)] [(1, 3)] rfl (by decide) (by decide)
    (by intro si hsi; fin_cases hsi; decide)
  exact ⟨rfl, h.2.2⟩

/-- C6: when payment authorization fails in checkout, a successful enqueue
keeps the sale `pending` (never `failed`) with no log entry and tells the
user the order is queued for asynchronous retry; only a failed enqueue marks
the sale `failed`, writes a FailedPaymentLog entry, and then reverts the sale
to `cart`. -/
theorem checkout_auth_failure_graceful_degradation
    (sale : SaleRec) (pm reason : String) (qr : Except String String) :
    (∀ qmsg, qr = .ok qmsg →
      (checkout_auth_failure sale pm reason qr).sale.status = "pending" ∧
      "failed" ∉ (checkout_auth_failure sale pm reason qr).saleStatusTrace ∧
      (checkout_auth_failure sale pm reason qr).log = none ∧
      (checkout_auth_failure sale pm reason qr).message =
        "Payment gateway is currently unavailable. Your order has been queued for retry and will be processed asynchronously. Details: "
          ++ (if qmsg = "" then reason else qmsg) ∧
      (checkout_auth_failure sale pm reason qr).httpStatus = 200) ∧
    (∀ e, qr = .error e →
      (checkout_auth_failure sale pm reason qr).saleStatusTrace = ["failed", "cart"] ∧
      (checkout_auth_failure sale pm reason qr).sale.status = "cart" ∧
      (checkout_auth_failure sale pm reason qr).paymentStatus = some "failed" ∧
      (checkout_auth_failure sale pm reason qr).log =
        some ⟨sale.userID, sale.totalAmount, pm, reason⟩ ∧
      (checkout_auth_failure sale pm reason qr).httpStatus = 400) := by
  constructor
  · intro qmsg hq
    subst hq
    refine ⟨rfl, ?_, rfl, rfl, rfl⟩
    simp [checkout_auth_failure]
  · intro e hq
    subst hq
    exact ⟨rfl, rfl, rfl, rfl, rfl⟩

/-- Witness for C6 at a concrete sale, for both enqueue outcomes. -/
theorem checkout_auth_failure_graceful_degradation_witness :
    (checkout_auth_failure ⟨1, 2, 100, "pending"⟩ "Card"
        "Payment declined by processor" (.ok "queued")).sale.status = "pending" ∧
    (checkout_auth_failure ⟨1, 2, 100, "pending"⟩ "Card"
        "Payment declined by processor" (.error "db down")).sale.status = "cart" := by
  have h1 := checkout_auth_failure_graceful_degradation ⟨1, 2, 100, "pending"⟩ "Card"
    "Payment declined by processor" (.ok "queued")
  have h2 := checkout_auth_failure_graceful_degradation ⟨1, 2, 100, "pending"⟩ "Card"
    "Payment declined by processor" (.error "db down")
  exact ⟨(h1.1 "queued" rfl).1, (h2.2 "db down" rfl).2.1⟩

/-- Running `failure_threshold` consecutive failures from a fresh closed
breaker leaves it open with the retry clock set. -/
theorem cb_run_failures_opens (now timeout : Nat) :
    ∀ k c t, 1 ≤ k → c + k = t →
      cb_run_failures ⟨.closed, c, none, t, timeout⟩ now k =
        ⟨.opened, t, some (now + timeout), t, timeout⟩ := by
  intro k
  induction k with
  | zero => intro c t h1 _; omega
  | succ k ih =>
      intro c t h1 h2
      by_cases hk : k = 0
      · subst hk
        have hle : t ≤ c + 1 := by omega
        have hct : c + 1 = t := by omega
        simp [cb_run_failures, cb_execute, hle, hct]
      · have hnle : ¬ t ≤ c + 1 := by omega
        simp only [cb_run_failures, cb_execute, hnle, if_neg]
        exact ih (c + 1) t (by omega) (by omega)

/-- C8: the circuit breaker (modelled from spec section 4.1, the
implementation being absent from src/): (a) while open before the timeout,
calls short-circuit with `(False, "service temporarily unavailable")` without
invoking the operation and without changing state; (b) after
`failure_threshold` consecutive failures the next call short-circuits;
(c) once `timeout_duration` has elapsed the next call is let through as the
half-open probe; (d) a failing probe re-opens the breaker and resets the
timeout clock (so the following call short-circuits again), while a
succeeding probe closes it and resets the failure count. -/
theorem circuit_breaker_behavior
    (cb : BreakerState) (now now2 : Nat) (op : Except String String) (r e : String) :
    (cb.state = .opened → ∀ t, cb.nextAttemptTime = some t → now < t →
      cb_execute cb now op = ⟨false, "service temporarily unavailable", false, cb⟩) ∧
    (∀ thr timeout, 1 ≤ thr → now2 < now + timeout →
      cb_execute (cb_run_failures ⟨.closed, 0, none, thr, timeout⟩ now thr) now2 op =
        ⟨false, "service temporarily unavailable", false,
          ⟨.opened, thr, some (now + timeout), thr, timeout⟩⟩) ∧
    (cb.state = .opened → ∀ t, cb.nextAttemptTime = some t → t ≤ now →
      (cb_execute cb now op).invoked = true) ∧
    (cb.state = .opened → ∀ t, cb.nextAttemptTime = some t → t ≤ now →
      ((cb_execute cb now (.error e)).after.state = .opened ∧
       (cb_execute cb now (.error e)).after.nextAttemptTime = some (now + cb.timeoutDuration) ∧
       (now2 < now + cb.timeoutDuration →
         cb_execute (cb_execute cb now (.error e)).after now2 op =
           ⟨false, "service temporarily unavailable", false,
             (cb_execute cb now (.error e)).after⟩) ∧
       (cb_execute cb now (.ok r)).after.state = .closed ∧
       (cb_execute cb now (.ok r)).after.failureCount = 0)) := by
  refine ⟨?_, ?_, ?_, ?_⟩
  · intro hop t ht hlt
    simp [cb_execute, hop, ht, hlt]
  · intro thr timeout hthr hlt
    rw [cb_run_failures_opens now timeout thr 0 thr hthr (by omega)]
    simp [cb_execute, hlt]
  · intro hop t ht hle
    have hnlt : ¬ now < t := not_lt.mpr hle
    cases op with
    | ok r2 => simp [cb_execute, hop, ht, hnlt]
    | error e2 => simp [cb_execute, hop, ht, hnlt]
  · intro hop t ht hle
    have hnlt : ¬ now < t := not_lt.mpr hle
    refine ⟨?_, ?_, ?_, ?_, ?_⟩
    · simp [cb_execute, hop, ht, hnlt]
    · simp [cb_execute, hop, ht, hnlt]
    · intro hlt2
      simp [cb_execute, hop, ht, hnlt, hlt2]
    · simp [cb_execute, hop, ht, hnlt]
    · simp [cb_execute, hop, ht, hnlt]

/-- Witness for C8 at a concrete breaker (threshold 2, timeout 60). -/
theorem circuit_breaker_behavior_witness :
    cb_execute ⟨.opened, 3, some 100, 3, 60⟩ 50 (.ok "ref") =
      ⟨false, "service temporarily unavailable", false, ⟨.opened, 3, some 100, 3, 60⟩⟩ ∧
    cb_execute (cb_run_failures ⟨.closed, 0, none, 2, 60⟩ 10 2) 20 (.ok "ref") =
      ⟨false, "service temporarily unavailable", false, ⟨.opened, 2, some 70, 2, 60⟩⟩ ∧
    (cb_execute ⟨.opened, 3, some 100, 3, 60⟩ 120 (.error "boom")).after.state
      = CBState.opened ∧
    (cb_execute ⟨.opened, 3, some 100, 3, 60⟩ 120 (.ok "ref")).after.failureCount = 0 := by
  have h1 := circuit_breaker_behavior ⟨.opened, 3, some 100, 3, 60⟩ 50 20 (.ok "ref")
    "ref" "boom"
  have h2 := circuit_breaker_behavior ⟨.opened, 3, some 100, 3, 60⟩ 120 20 (.ok "ref")
    "ref" "boom"
  refine ⟨h1.1 rfl 100 rfl (by omega), ?_, ?_, ?_⟩
  · have hb := (circuit_breaker_behavior ⟨.closed, 0, none, 2, 60⟩ 10 20 (.ok "ref")
      "ref" "boom").2.1 2 60 (by omega) (by omega)
    exact hb
  · exact ((h2.2.2.2) rfl 100 rfl (by omega)).1
  · exact ((h2.2.2.2) rfl 100 rfl (by omega)).2.2.2.2

end Retail
